import Mathlib

/-!
Verification of the self-inlining anonymous function core in
`src/SelfLambda.cpp`.

The C++ program encodes arithmetic expressions as types:
`I<i>` (integer constant), `Arg<T>` (the argument placeholder),
`Sum<E1,E2>` and `Prod<E1,E2>` (interior nodes).  A template
meta-program `Inline<E>` resolves an expression type into arithmetic.

We embed the type lattice as the inductive type `Node` (the extra
constructor `Other` stands for an arbitrary C++ type that is none of the
four node shapes, e.g. `double`), and the resolver member
`Inline<E>::at` as the partial function `atOp : Node → α → Option α`:
`none` models a C++ build-time failure (the requested member does not
exist for that instantiation), never a runtime error.

Faithfulness notes, from the source:
* `Inline<Arg<X1>>::at(arg)` returns `arg` (lines 98-103).
* `Inline<Sum<E1,E2>>::at(arg)` returns
  `Inline<E1>::at(arg) + Inline<E2>::at(arg)` (lines 106-114), and
  `Prod` likewise with `*` (lines 117-124); if a sub-expression has no
  `at` member the instantiation fails, hence the `Option` propagation.
* `Inline<I<i>>` (lines 89-95) defines a member named `value`, of type
  `int → int`, NOT a member `at`; we model it separately as
  `constValue`, and `atOp` on a constant node is therefore `none`.
* The primary template `Inline<E>` (lines 84-86) is empty, so `atOp`
  on `Other` is `none`.
-/

namespace SelfLambda

/-- Deep embedding of the C++ expression type lattice.  `I i` is the
constant node `I<i>`, `Arg` the argument placeholder `Arg<X1>`, `Sum`
and `Prod` the interior nodes, and `Other` stands for an arbitrary type
with no `Inline` specialization. -/
inductive Node : Type where
  | I : Int → Node
  | Arg : Node
  | Sum : Node → Node → Node
  | Prod : Node → Node → Node
  | Other : Node

/-- The member `Inline<E>::at`, as a partial function on node shapes:
`some` when the member exists and `none` when instantiating it is a
build-time error.  The scrutinee order in the `Sum`/`Prod` cases follows
the evaluation `Inline<E1>::at(arg) + Inline<E2>::at(arg)` in the
source. -/
def atOp {α : Type} [Add α] [Mul α] : Node → α → Option α
  | .I _, _ => none
  | .Arg, v => some v
  | .Sum e1 e2, v =>
      match atOp e1 v, atOp e2 v with
      | some a, some b => some (a + b)
      | _, _ => none
  | .Prod e1 e2, v =>
      match atOp e1 v, atOp e2 v with
      | some a, some b => some (a * b)
      | _, _ => none
  | .Other, _ => none

/-- The member `Inline<I<i>>::value` (lines 91-94): it takes an `int`
argument, ignores it, and returns the literal `i`. -/
def constValue (i : Int) (arg : Int) : Int := i

/-- Whether `Inline<E>` has a matching template specialization for the
node shape `E` (lines 84-124): every node shape except a foreign type
matches one of the four partial specializations. -/
def resolvable : Node → Bool
  | .Other => false
  | _ => true

/-- Depth of the expression type tree, bounding the template recursion
depth of the resolver. -/
def depth : Node → Nat
  | .I _ => 1
  | .Arg => 1
  | .Sum e1 e2 => 1 + max (depth e1) (depth e2)
  | .Prod e1 e2 => 1 + max (depth e1) (depth e2)
  | .Other => 1

/-- Fuel-bounded version of `atOp`: each recursive resolution step of
the inliner consumes one unit of fuel, and the result is `none` when the
fuel runs out before the tree is fully resolved. -/
def atFuel {α : Type} [Add α] [Mul α] : Nat → Node → α → Option α
  | 0, _, _ => none
  | _ + 1, .I _, _ => none
  | _ + 1, .Arg, v => some v
  | fuel + 1, .Sum e1 e2, v =>
      match atFuel fuel e1 v, atFuel fuel e2 v with
      | some a, some b => some (a + b)
      | _, _ => none
  | fuel + 1, .Prod e1 e2, v =>
      match atFuel fuel e1 v, atFuel fuel e2 v with
      | some a, some b => some (a * b)
      | _, _ => none
  | _ + 1, .Other, _ => none

/-- The stateless marker type `Sum<R1,R2>` as a C++ object type: it has
no data members, so it has a unique value. -/
structure SumMk (R1 R2 : Type) : Type where

/-- The stateless marker type `Prod<R1,R2>` as a C++ object type. -/
structure ProdMk (R1 R2 : Type) : Type where

/-- `Exp<T>::operator+` (lines 61-65): takes the right operand of an
arbitrary type `M` by value, discards it (`(void)m`), and returns the
marker value `Dummy<Sum<T,M>>::value`, which is the unique inhabitant of
the stateless marker type.  The receiver object is likewise never
read. -/
def Exp.add {T M : Type} (self : T) (m : M) : SumMk T M := SumMk.mk

/-- `Exp<T>::operator*` (lines 55-59), analogously producing the
`Prod<T,M>` marker. -/
def Exp.mul {T M : Type} (self : T) (m : M) : ProdMk T M := ProdMk.mk

/-- The hand-written comparison function `square` (lines 167-169). -/
def square {α : Type} [Mul α] (x : α) : α := x * x

/-- Loop body of `integrate_fp` (lines 138-149): `n` iterations, each
computing `y = f(x)`, adding `y * delta` to the accumulator, then
stepping `x` by `delta`. -/
def integrate_fp_go {α : Type} [Add α] [Mul α] (f : α → α) (delta : α) :
    Nat → α → α → α
  | 0, _, area => area
  | k + 1, x, area => integrate_fp_go f delta k (x + delta) (area + f x * delta)

/-- `integrate_fp` (lines 138-149): rectangle-rule integration of an
ordinary function `f` with `delta = (b - a) / n`, accumulator starting
at `0.0` and `x` starting at `a`. -/
def integrate_fp {α : Type} [Add α] [Sub α] [Mul α] [Div α] [NatCast α]
    [Zero α] (f : α → α) (a b : α) (n : Nat) : α :=
  integrate_fp_go f ((b - a) / (n : α)) n a 0

/-- Loop body of the template version `integrate` (lines 152-164): the
same loop, but `y` is obtained by resolving the expression type `F`
inline, `y = Inline<F>::at(x)`.  A failed resolution (a build-time
error in C++) makes the whole computation `none`. -/
def integrate_go {α : Type} [Add α] [Mul α] (F : Node) (delta : α) :
    Nat → α → α → Option α
  | 0, _, area => some area
  | k + 1, x, area =>
      match atOp F x with
      | some y => integrate_go F delta k (x + delta) (area + y * delta)
      | none => none

/-- `integrate` (lines 152-164): the self-inlining variant of the
integration routine. -/
def integrate {α : Type} [Add α] [Sub α] [Mul α] [Div α] [NatCast α]
    [Zero α] (F : Node) (a b : α) (n : Nat) : Option α :=
  integrate_go F ((b - a) / (n : α)) n a 0

/-- Claim C1: the resolver for the constant node `I<i>` is claimed to
expose `at(A) -> A` and to yield `i` at every argument.  In the code the
member is named `value`, of type `int → int`: `value` does return the
literal `i` while ignoring its argument, but `Inline<I<i>>::at` does not
exist, so evaluating the constant node through the `at` interface (here
at `i = 3`, `v = 5`) fails. -/
theorem constant_resolver_value_not_at :
    constValue 3 5 = 3 ∧ atOp (Node.I 3) (5 : Int) = none :=
  ⟨rfl, rfl⟩

/-- Claim C2: whenever both sub-expressions resolve, `Sum(E1,E2)`
evaluates at `v` to the sum of the sub-results and `Prod(E1,E2)` to
their product. -/
theorem sum_prod_eval {α : Type} [Add α] [Mul α] (e1 e2 : Node) (v a b : α)
    (h1 : atOp e1 v = some a) (h2 : atOp e2 v = some b) :
    atOp (Node.Sum e1 e2) v = some (a + b) ∧
      atOp (Node.Prod e1 e2) v = some (a * b) := by
  constructor <;> simp [atOp, h1, h2]

/-- Witness for claim C2 at `E1 = E2 = Arg`, `v = 3` over `Int`. -/
theorem sum_prod_eval_witness :
    atOp (Node.Sum Node.Arg Node.Arg) (3 : Int) = some 6 ∧
      atOp (Node.Prod Node.Arg Node.Arg) (3 : Int) = some 9 :=
  sum_prod_eval Node.Arg Node.Arg 3 3 3 rfl rfl

/-- Claim C3: the resolver for the argument placeholder is the identity:
`Inline<Arg<X1>>::at(v) = v` for every argument value `v`. -/
theorem arg_eval_identity {α : Type} [Add α] [Mul α] (v : α) :
    atOp Node.Arg v = some v := rfl

/-- Claim C4: the expression built from `Argument * Argument` evaluates
at `v` to exactly `v * v`, i.e. to the very multiplication the
hand-written `square` performs; the equality is proved for an arbitrary
interpretation of `*`, hence it holds bit-for-bit for any concrete
arithmetic, floating point included. -/
theorem prod_arg_arg_eq_square {α : Type} [Add α] [Mul α] (v : α) :
    atOp (Node.Prod Node.Arg Node.Arg) v = some (v * v) ∧
      atOp (Node.Prod Node.Arg Node.Arg) v = some (square v) :=
  ⟨rfl, rfl⟩

/-- Helper for claim C5: step by step, the inline-resolving loop on
`Prod<Arg,Arg>` computes exactly what the function-pointer loop computes
on `square`, for any fixed `delta` and any start state. -/
theorem integrate_go_eq_fp_go {α : Type} [Add α] [Mul α] (delta : α) :
    ∀ (k : Nat) (x area : α),
      integrate_go (Node.Prod Node.Arg Node.Arg) delta k x area =
        some (integrate_fp_go square delta k x area) := by
  intro k
  induction k with
  | zero => intro x area; rfl
  | succ k ih =>
      intro x area
      simpa [integrate_go, integrate_fp_go, atOp, square] using ih (x + delta)
        (area + x * x * delta)

/-- Claim C5: for every `a`, `b`, `n`, integrating the inline-resolved
`x * x` expression produces exactly the result of integrating the
ordinary function `square` — the two loops execute the same sequence of
arithmetic operations, so equality is exact in any interpretation of the
operations (in particular, floating-point runs agree to the last bit). -/
theorem integrate_inline_eq_integrate_fp {α : Type} [Add α] [Sub α] [Mul α]
    [Div α] [NatCast α] [Zero α] (a b : α) (n : Nat) :
    integrate (Node.Prod Node.Arg Node.Arg) a b n =
      some (integrate_fp square a b n) :=
  integrate_go_eq_fp_go ((b - a) / (n : α)) n a 0

/-- Claim C6: unsupported node shapes do fail at resolution time (no
specialization matches `Other`), but the claim that the evaluator is
defined on exactly the four supported shapes fails: the constant shape
`I<3>` matches a specialization, yet `Sum(I<3>, Arg)` — a tree built
only from supported shapes — has no `at` to resolve (here at `v = 5`),
because the constant specialization names its member `value`. -/
theorem constant_shape_supported_but_at_undefined :
    resolvable (Node.I 3) = true ∧ resolvable Node.Other = false ∧
      atOp (Node.Sum (Node.I 3) Node.Arg) (5 : Int) = none :=
  ⟨rfl, rfl, rfl⟩

/-- Claim C7: the resolver terminates on every finite expression tree,
with template recursion depth equal to the tree depth: giving the
fuel-metered resolver at least `depth e` units of fuel makes it agree
with the unmetered one. -/
theorem atFuel_depth_eq_atOp {α : Type} [Add α] [Mul α] (e : Node) (v : α)
    (fuel : Nat) (h : depth e ≤ fuel) : atFuel fuel e v = atOp e v := by
  induction e generalizing fuel v with
  | I i =>
      cases fuel with
      | zero => simp [depth] at h
      | succ k => rfl
  | Arg =>
      cases fuel with
      | zero => simp [depth] at h
      | succ k => rfl
  | Sum e1 e2 ih1 ih2 =>
      cases fuel with
      | zero => simp [depth] at h
      | succ k =>
          simp only [depth] at h
          have h1 : depth e1 ≤ k := by omega
          have h2 : depth e2 ≤ k := by omega
          simp [atFuel, atOp, ih1 v k h1, ih2 v k h2]
  | Prod e1 e2 ih1 ih2 =>
      cases fuel with
      | zero => simp [depth] at h
      | succ k =>
          simp only [depth] at h
          have h1 : depth e1 ≤ k := by omega
          have h2 : depth e2 ≤ k := by omega
          simp [atFuel, atOp, ih1 v k h1, ih2 v k h2]
  | Other =>
      cases fuel with
      | zero => simp [depth] at h
      | succ k => rfl

/-- Witness for claim C7 at the tree `Sum(Arg, Arg)` of depth 2 with
fuel 2, over `Int` at `v = 5`. -/
theorem atFuel_depth_eq_atOp_witness :
    atFuel 2 (Node.Sum Node.Arg Node.Arg) (5 : Int) =
      atOp (Node.Sum Node.Arg Node.Arg) (5 : Int) :=
  atFuel_depth_eq_atOp (Node.Sum Node.Arg Node.Arg) 5 2 (by decide)

/-- Claim C8: the combinators are pure type-level operations.  For any
receiver values and any operand values of the same types, `operator+`
returns the same `Sum<T,M>` marker and `operator*` the same `Prod<T,M>`
marker: neither the receiver nor the operand value is ever read. -/
theorem combinators_ignore_operand_values (T M : Type) (s1 s2 : T)
    (m1 m2 : M) :
    Exp.add s1 m1 = Exp.add s2 m2 ∧ Exp.mul s1 m1 = Exp.mul s2 m2 :=
  ⟨rfl, rfl⟩

/-- Claim C9: the evaluator re-parenthesises nothing, so when the
underlying addition is associative, `Sum(Sum(A,B),C)` and
`Sum(A,Sum(B,C))` evaluate identically — including agreement on whether
resolution succeeds at all. -/
theorem sum_assoc_passthrough {α : Type} [Add α] [Mul α]
    (h : ∀ x y z : α, x + y + z = x + (y + z)) (A B C : Node) (v : α) :
    atOp (Node.Sum (Node.Sum A B) C) v =
      atOp (Node.Sum A (Node.Sum B C)) v := by
  simp only [atOp]
  cases atOp A v <;> cases atOp B v <;> cases atOp C v <;> simp [h]

/-- Witness for claim C9 over `Int` (where `+` is associative) at
`A = B = C = Arg`, `v = 2`. -/
theorem sum_assoc_passthrough_witness :
    atOp (Node.Sum (Node.Sum Node.Arg Node.Arg) Node.Arg) (2 : Int) =
      atOp (Node.Sum Node.Arg (Node.Sum Node.Arg Node.Arg)) (2 : Int) :=
  sum_assoc_passthrough (fun x y z => add_assoc x y z) Node.Arg Node.Arg
    Node.Arg 2

/-- Claim C10: the combinators validate nothing.  `operator+` and
`operator*` accept an operand of any type whatsoever — here the
non-expression type `Nat` — and succeed, producing the marker;
meanwhile a malformed combination such as `Sum<E, double>` still
matches the `Inline<Sum<E1,E2>>` specialization when built, and is
rejected only when the resolver's `at` is instantiated on it. -/
theorem combinators_defer_validation_to_inline :
    (∀ (T : Type) (s : T) (m : Nat),
        Exp.add s m = Exp.add s 0 ∧ Exp.mul s m = Exp.mul s 0) ∧
      (∀ (e : Node) (v : Int),
        resolvable (Node.Sum e Node.Other) = true ∧
          atOp (Node.Sum e Node.Other) v = none ∧
          atOp (Node.Prod e Node.Other) v = none) := by
  refine ⟨fun T s m => ⟨rfl, rfl⟩, fun e v => ⟨rfl, ?_, ?_⟩⟩ <;>
    cases h : atOp e v <;> simp [atOp, h]

end SelfLambda
